import Mathlib

/-!
Verification of `main.py` of py_em_fluctuation: a FastAPI dashboard that
supervises a `fluctuation.py` worker subprocess and serves its CSV output
file as CSV and JSON.  The Python source is shallowly embedded: the file
endpoints become pure functions over the (optional) content of
`static/changes.csv`, and the process-control code (`lifespan`,
`restart_watch`, `get_watch_status`, `output_reader`) becomes pure
functions that return, besides their results, the ordered trace of
process-level primitives they perform (spawn, terminate, wait, kill,
thread starts, poll, prints).
-/

namespace EmFluctuation

/-! ## JSON values and CSV parsing (model of the pandas pipeline) -/

/-- JSON values as produced by the `/api/changes/json` endpoint.  Numbers
are modelled at the JSON-value level (where integral floats and integers
are the same number). -/
inductive Json where
  | null
  | num (n : Nat)
  | str (s : String)
  deriving Repr, DecidableEq

/-- Split a character list at every occurrence of `c` (model of splitting
a file into lines / a line into comma-separated cells). -/
def splitOnChar (c : Char) : List Char → List (List Char)
  | [] => [[]]
  | x :: xs =>
    match splitOnChar c xs with
    | [] => [[x]]
    | y :: ys => if x = c then [] :: y :: ys else (x :: y) :: ys

/-- Split a string at every occurrence of the character `c`. -/
def splitStr (c : Char) (s : String) : List String :=
  (splitOnChar c s.data).map String.mk

/-- The non-blank lines of a file (pandas `read_csv` skips blank lines). -/
def nonEmptyLines (s : String) : List String :=
  (splitStr (Char.ofNat 10) s).filter (fun l => !l.data.isEmpty)

/-- A parsed CSV table: the header row and the data rows, as raw cells. -/
structure Table where
  header : List String
  rows : List (List String)
  deriving Repr, DecidableEq

/-- Model of `pd.read_csv` on the changes file: an empty file raises
`EmptyDataError("No columns to parse from file")`; otherwise the first
non-blank line is the header and the remaining lines are the rows. -/
def read_csv (s : String) : Except String Table :=
  match nonEmptyLines s with
  | [] => Except.error "No columns to parse from file"
  | h :: rest => Except.ok ⟨splitStr (Char.ofNat 44) h, rest.map (splitStr (Char.ofNat 44))⟩

/-- Cells that pandas reads as missing (`NaN`): the empty cell and the
literal `NaN` token. -/
def isNA (s : String) : Bool := s == "" || s == "NaN"

/-- A cell consisting solely of digits is read as a number. -/
def isNatString (s : String) : Bool := !s.data.isEmpty && s.data.all Char.isDigit

/-- Numeric value of a digit string. -/
def digitsToNat (l : List Char) : Nat := l.foldl (fun n c => 10 * n + (c.toNat - 48)) 0

/-- The JSON value a raw CSV cell is converted to by
`df.where(pd.notnull(df), None).to_dict(orient="records")`: missing cells
become an explicit `null`, numeric cells become numbers, anything else
stays a string. -/
def cellToJson (s : String) : Json :=
  if isNA s then Json.null
  else if isNatString s then Json.num (digitsToNat s.data)
  else Json.str s

/-- One record of `to_dict(orient="records")`: every header column is a
key (a row short of cells yields missing values, hence `null`). -/
def rowRecord : List String → List String → List (String × Json)
  | [], _ => []
  | h :: hs, [] => (h, cellToJson "") :: rowRecord hs []
  | h :: hs, c :: cs => (h, cellToJson c) :: rowRecord hs cs

/-- The full ordered sequence of records of a table. -/
def to_records (t : Table) : List (List (String × Json)) :=
  t.rows.map (rowRecord t.header)

/-! ## HTTP responses and the two file endpoints -/

/-- The responses the two `/api/changes` endpoints can produce:
a `FileResponse`, a `JSONResponse`, or a raised `HTTPException`. -/
inductive HResponse where
  | fileResp (content : String) (mediaType : String) (filename : String)
  | jsonResp (data : List (List (String × Json)))
  | httpError (status : Nat) (detail : String)
  deriving Repr, DecidableEq

/-- `GET /api/changes/csv`: 404 if `static/changes.csv` is absent, else the
file verbatim.  `file` is the optional content of `static/changes.csv`. -/
def get_changes_csv (file : Option String) : HResponse :=
  match file with
  | none => HResponse.httpError 404 "CSV file not found"
  | some content => HResponse.fileResp content "text/csv" "changes.csv"

/-- `GET /api/changes/json`: 404 if the file is absent; else parse it with
pandas, turn missing cells into `None` and return the records; any parse
exception becomes a 500 with the message of the exception. -/
def get_changes_json (file : Option String) : HResponse :=
  match file with
  | none => HResponse.httpError 404 "CSV file not found"
  | some content =>
    match read_csv content with
    | Except.error e => HResponse.httpError 500 ("Error reading CSV: " ++ e)
    | Except.ok t => HResponse.jsonResp (to_records t)

/-! ## Process supervision

The control code manipulates one global `watch_process : Optional[Popen]`.
Each control routine is embedded as a pure function returning its result
together with the ordered trace of process-level primitives it performs.
The behaviour of the environment is a parameter: whether the old process exits
within the grace period of `wait(timeout=5)`, and whether `kill()` raises.
-/

/-- Process-level primitives performed by the control code, in order. -/
inductive ProcOp where
  /-- `subprocess.Popen([...], stdout=PIPE, stderr=PIPE, ...)` -/
  | spawn (pid : Nat) (stdoutPipe : Bool) (stderrPipe : Bool)
  /-- `proc.terminate()` -/
  | terminate (pid : Nat)
  /-- `proc.wait(timeout)` returned: the exit of the process was observed -/
  | waitExited (pid : Nat) (timeout : Nat)
  /-- `proc.wait(timeout)` raised `TimeoutExpired` after `timeout` seconds -/
  | waitTimeout (pid : Nat) (timeout : Nat)
  /-- `proc.kill()` was called (no wait is implied) -/
  | kill (pid : Nat)
  /-- `threading.Thread(target=output_reader, args=(stream, tag)).start()` -/
  | startRelayThread (pid : Nat) (stream : String) (tag : String)
  /-- `proc.poll()` (non-blocking) -/
  | poll (pid : Nat)
  /-- `print(msg)` -/
  | log (msg : String)
  deriving Repr, DecidableEq

/-- The grace period of every `wait(timeout=5)` in the source. -/
def gracePeriod : Nat := 5

/-- Trace of the startup half of `lifespan`, given the pid the spawn
assigned: spawn with both pipes, log the pid, start the two reader
threads. -/
def startup_trace (pid : Nat) : List ProcOp :=
  [ ProcOp.spawn pid true true,
    ProcOp.log ("Started fluctuation watch with PID: " ++ toString pid),
    ProcOp.startRelayThread pid "stdout" "fluctuation",
    ProcOp.startRelayThread pid "stderr" "fluctuation-err" ]

/-- The startup half of `lifespan`.  `spawnResult` is what `Popen` did:
`ok pid` or an exception.  The `try` block has no `except` clause, so a
spawn exception propagates out of the lifespan (application startup
fails); on success the handle is recorded and the relays started. -/
def startup (spawnResult : Except String Nat) : Except String (Option Nat × List ProcOp) :=
  match spawnResult with
  | Except.error e => Except.error e
  | Except.ok pid => Except.ok (some pid, startup_trace pid)

/-- Whether application startup succeeded (lifespan reached `yield`). -/
def startupSucceeds : Except String (Option Nat × List ProcOp) → Bool
  | Except.ok _ => true
  | Except.error _ => false

/-- Trace of the shutdown half of `lifespan`: if a handle exists,
`terminate()`, then `wait(timeout=5)`; on timeout, `kill()` with no
further wait.  `exitsWithinGrace` says whether the wait returned in
time. -/
def shutdown_trace (watch_process : Option Nat) (exitsWithinGrace : Bool) : List ProcOp :=
  match watch_process with
  | none => []
  | some pid =>
    if exitsWithinGrace then
      [ ProcOp.terminate pid, ProcOp.waitExited pid gracePeriod,
        ProcOp.log "Fluctuation watch stopped gracefully" ]
    else
      [ ProcOp.terminate pid, ProcOp.waitTimeout pid gracePeriod,
        ProcOp.kill pid,
        ProcOp.log "Fluctuation watch was force stopped" ]

/-- `POST /api/watch/restart`: stop the existing process if any
(`terminate`; `wait(5)`; on timeout `kill` with no wait), then spawn the
new process (both pipes captured, no reader threads) and record it.
Returns the new `watch_process`, the response body (`none` if `kill()`
raised and the exception propagated out of the handler), and the trace. -/
def restart_watch (watch_process : Option Nat) (exitsWithinGrace : Bool)
    (killRaises : Bool) (newPid : Nat) :
    Option Nat × Option (String × Nat) × List ProcOp :=
  match watch_process with
  | none =>
    (some newPid, some ("restarted", newPid), [ProcOp.spawn newPid true true])
  | some pid =>
    if exitsWithinGrace then
      (some newPid, some ("restarted", newPid),
       [ ProcOp.terminate pid, ProcOp.waitExited pid gracePeriod,
         ProcOp.spawn newPid true true ])
    else if killRaises then
      (some pid, none,
       [ ProcOp.terminate pid, ProcOp.waitTimeout pid gracePeriod, ProcOp.kill pid ])
    else
      (some newPid, some ("restarted", newPid),
       [ ProcOp.terminate pid, ProcOp.waitTimeout pid gracePeriod, ProcOp.kill pid,
         ProcOp.spawn newPid true true ])

/-- The three response shapes of `GET /api/watch/status`. -/
inductive StatusResp where
  | not_running
  | running (pid : Nat)
  | stopped (return_code : Int)
  deriving Repr, DecidableEq

/-- `GET /api/watch/status`: no handle means `not_running`; otherwise one
`poll()` decides between `running` (with pid) and `stopped` (with the exit
code).  `pollResult` is what `poll()` returned (`none` = still alive). -/
def get_watch_status (watch_process : Option Nat) (pollResult : Option Int) :
    StatusResp × List ProcOp :=
  match watch_process with
  | none => (StatusResp.not_running, [])
  | some pid =>
    match pollResult with
    | none => (StatusResp.running pid, [ProcOp.poll pid])
    | some rc => (StatusResp.stopped rc, [ProcOp.poll pid])

/-- Ops that block the caller: only the two `wait` forms block. -/
def isBlockingOp : ProcOp → Bool
  | ProcOp.waitExited _ _ => true
  | ProcOp.waitTimeout _ _ => true
  | _ => false

/-- Does this op observe the termination of process `p` (a `wait` that
returned)? -/
def observesExitOf (p : Nat) : ProcOp → Bool
  | ProcOp.waitExited q _ => q == p
  | _ => false

/-- Is this op `kill p`? -/
def isKillOf (p : Nat) : ProcOp → Bool
  | ProcOp.kill q => q == p
  | _ => false

/-- Is this op the start of an output-relay thread? -/
def isRelayStart : ProcOp → Bool
  | ProcOp.startRelayThread _ _ _ => true
  | _ => false

/-- The ops a trace performs strictly after its first `kill p`. -/
def opsAfterKill (p : Nat) (tr : List ProcOp) : List ProcOp :=
  (tr.dropWhile (fun op => !isKillOf p op)).drop 1

/-- Whether a trace, after killing `p`, waits for that kill to complete. -/
def waitsForKill (p : Nat) (tr : List ProcOp) : Bool :=
  (opsAfterKill p tr).any (fun op =>
    match op with
    | ProcOp.waitExited q _ => q == p
    | ProcOp.waitTimeout q _ => q == p
    | _ => false)

/-! ## The output relay (`output_reader`) -/

/-- Leading-whitespace removal on a character list. -/
def dropLeadingWs : List Char → List Char
  | [] => []
  | c :: cs => if c.isWhitespace then dropLeadingWs cs else c :: cs

/-- Model of the Python `str.strip()` method: whitespace removed at both ends. -/
def pyStrip (s : String) : String :=
  String.mk ((dropLeadingWs ((dropLeadingWs s.data).reverse)).reverse)

/-- `output_reader(pipe, name)`: for each complete line of the stream,
print `[name] line.strip()` to the shared stdout sink.  Returns the
ordered sink entries. -/
def output_reader (pipe : List String) (name : String) : List String :=
  pipe.map (fun line => "[" ++ name ++ "] " ++ pyStrip line)

/-- Substring test on character lists (used to state what a sink entry is
tagged with). -/
def isPrefixChars : List Char → List Char → Bool
  | [], _ => true
  | _ :: _, [] => false
  | a :: as, b :: bs => a == b && isPrefixChars as bs

/-- Does `needle` occur inside `hay`? -/
def containsSub (needle : List Char) : List Char → Bool
  | [] => needle.isEmpty
  | c :: t => isPrefixChars needle (c :: t) || containsSub needle t

/-! ## Helper lemmas -/

/-- Every record carries exactly the header columns as keys, in order. -/
theorem rowRecord_keys (hs : List String) (row : List String) :
    (rowRecord hs row).map Prod.fst = hs := by
  induction hs generalizing row with
  | nil => cases row <;> rfl
  | cons h hs ih =>
    cases row with
    | nil => simpa [rowRecord] using ih []
    | cons c cs => simpa [rowRecord] using ih cs

/-- A cell converts to `null` exactly when pandas reads it as missing. -/
theorem cellToJson_null_iff (s : String) : cellToJson s = Json.null ↔ isNA s = true := by
  unfold cellToJson
  split
  · simp_all
  · split <;> simp_all

/-- No cell ever converts to the string value `"NaN"`. -/
theorem cellToJson_ne_NaN (s : String) : cellToJson s ≠ Json.str "NaN" := by
  intro hcon
  unfold cellToJson at hcon
  by_cases h1 : isNA s
  · simp [h1] at hcon
  · by_cases h2 : isNatString s
    · simp [h1, h2] at hcon
    · simp [h1, h2] at hcon
      apply h1
      rw [hcon]
      decide

/-! ## Claims -/

/-- Claim C1 (counterexample): a restart over a live worker (pid 7) that
ignores the graceful terminate spawns the new worker (pid 8) although the
trace never observed the exit of pid 7 — `kill()` is not followed by any
wait, so the spawn does not wait for the prior process to observably
terminate. -/
theorem C1_restart_overlap_cex :
    ProcOp.spawn 8 true true ∈ (restart_watch (some 7) false false 8).2.2 ∧
    ((restart_watch (some 7) false false 8).2.2.any (observesExitOf 7)) = false := by
  decide

/-- Claim C1 (amended): `restart_watch` runs as one atomic handler (it has
no suspension point), so overlapping restart calls serialize; when the old
process exits within the grace period the new spawn strictly follows the
observed exit, but when the grace period expires the handler issues
`kill` and spawns immediately, with no observation of the exit of the old
process anywhere in the trace. -/
theorem C1_restart_spawn_ordering (p n : Nat) :
    (restart_watch (some p) true false n).2.2
      = [ProcOp.terminate p, ProcOp.waitExited p gracePeriod, ProcOp.spawn n true true] ∧
    (restart_watch (some p) false false n).2.2
      = [ProcOp.terminate p, ProcOp.waitTimeout p gracePeriod, ProcOp.kill p,
         ProcOp.spawn n true true] ∧
    ((restart_watch (some p) false false n).2.2.any (observesExitOf p)) = false :=
  ⟨rfl, rfl, rfl⟩

/-- Claim C2: for every readable data file the JSON endpoint returns the
full ordered sequence of records; every record has exactly the header
keys (no omitted key); a cell maps to `null` exactly when it is missing
or empty, and never to the string `"NaN"`; on the concrete file
`concept,value / A,5 / B,` the endpoint returns precisely the two records
with `value` 5 and `null`. -/
theorem C2_json_null_cells (content : String) (t : Table)
    (h : read_csv content = Except.ok t) :
    get_changes_json (some content) = HResponse.jsonResp (to_records t) ∧
    (∀ row, (rowRecord t.header row).map Prod.fst = t.header) ∧
    (∀ s : String, cellToJson s = Json.null ↔ isNA s = true) ∧
    (∀ s : String, cellToJson s ≠ Json.str "NaN") ∧
    get_changes_json (some "concept,value\nA,5\nB,") =
      HResponse.jsonResp [[("concept", Json.str "A"), ("value", Json.num 5)],
                          [("concept", Json.str "B"), ("value", Json.null)]] := by
  refine ⟨?_, fun row => rowRecord_keys t.header row,
          fun s => cellToJson_null_iff s, fun s => cellToJson_ne_NaN s, by decide⟩
  simp only [get_changes_json, h]

/-- Claim C2 (witness): the theorem applied to the concrete file of the
claim. -/
theorem C2_json_null_cells_witness :
    get_changes_json (some "concept,value\nA,5\nB,") =
      HResponse.jsonResp (to_records ⟨["concept", "value"], [["A", "5"], ["B", ""]]⟩) :=
  (C2_json_null_cells "concept,value\nA,5\nB,"
    ⟨["concept", "value"], [["A", "5"], ["B", ""]]⟩ rfl).1

/-- Claim C3 (counterexample): when the worker (pid 7) does not exit
within the grace period, both stop sites — the lifespan shutdown and the
stop half of a restart — call `kill` but never wait for the kill to
complete: no wait op follows the kill in either trace. -/
theorem C3_stop_kill_cex :
    ProcOp.kill 7 ∈ shutdown_trace (some 7) false ∧
    waitsForKill 7 (shutdown_trace (some 7) false) = false ∧
    ProcOp.kill 7 ∈ (restart_watch (some 7) false false 8).2.2 ∧
    waitsForKill 7 ((restart_watch (some 7) false false 8).2.2) = false := by
  decide

/-- Claim C3 (amended): every stop of a live worker first sends the
graceful `terminate`, waits up to the 5-second grace period, and only on
timeout sends `kill` — but it does not wait for the kill to complete: the
kill is the last process op before the log (shutdown) or the new spawn
(restart). -/
theorem C3_stop_behavior (p n : Nat) :
    shutdown_trace (some p) true
      = [ProcOp.terminate p, ProcOp.waitExited p gracePeriod,
         ProcOp.log "Fluctuation watch stopped gracefully"] ∧
    shutdown_trace (some p) false
      = [ProcOp.terminate p, ProcOp.waitTimeout p gracePeriod, ProcOp.kill p,
         ProcOp.log "Fluctuation watch was force stopped"] ∧
    waitsForKill p (shutdown_trace (some p) false) = false ∧
    waitsForKill p ((restart_watch (some p) false false n).2.2) = false := by
  refine ⟨rfl, rfl, ?_, ?_⟩ <;>
    simp [shutdown_trace, restart_watch, waitsForKill, opsAfterKill, isKillOf,
          List.dropWhile]

/-- Claim C4 (counterexample): a successful restart (old pid 7, new pid 8)
returns `restarted` with the new pid, but starts zero relay threads,
whereas the startup `Start` starts two — restart is not `Stop` followed by
the same `Start`. -/
theorem C4_restart_no_relays_cex :
    ((restart_watch (some 7) true false 8).2.2.countP isRelayStart) = 0 ∧
    ((startup_trace 8).countP isRelayStart) = 2 ∧
    (restart_watch (some 7) true false 8).2.1 = some ("restarted", 8) := by
  decide

/-- Claim C4 (amended): after every successful restart the new process is
recorded as the live handle, was spawned with both output channels
captured, and the endpoint returns `restarted` with the new pid; but
unlike the startup `Start`, no output-relay thread is attached to the new
process. -/
theorem C4_restart_behavior (st : Option Nat) (g : Bool) (n : Nat) :
    (restart_watch st g false n).1 = some n ∧
    (restart_watch st g false n).2.1 = some ("restarted", n) ∧
    ProcOp.spawn n true true ∈ (restart_watch st g false n).2.2 ∧
    ((restart_watch st g false n).2.2.countP isRelayStart) = 0 ∧
    ((startup_trace n).countP isRelayStart) = 2 := by
  cases st <;> cases g <;>
    simp [restart_watch, startup_trace, isRelayStart, List.countP_cons]

/-- Claim C5: the status endpoint returns `not_running` when no handle
exists, `running` with the pid while `poll()` returns nothing, `stopped`
with the exit code once `poll()` reports one, and its trace contains no
blocking op — only the non-blocking `poll`. -/
theorem C5_status_spec (pid : Nat) (rc : Int) (proc : Option Nat) (pr : Option Int) :
    (get_watch_status none pr).1 = StatusResp.not_running ∧
    (get_watch_status (some pid) none).1 = StatusResp.running pid ∧
    (get_watch_status (some pid) (some rc)).1 = StatusResp.stopped rc ∧
    ((get_watch_status proc pr).2.all (fun op => !isBlockingOp op)) = true := by
  refine ⟨rfl, rfl, rfl, ?_⟩
  cases proc <;> cases pr <;> rfl

/-- Claim C6: with the data file absent, both file endpoints raise the
same error: a 404 with the same detail. -/
theorem C6_absent_file_404 :
    get_changes_csv none = HResponse.httpError 404 "CSV file not found" ∧
    get_changes_json none = HResponse.httpError 404 "CSV file not found" :=
  ⟨rfl, rfl⟩

/-- Claim C7 (counterexample): when `Popen` raises at startup, the
exception propagates out of the lifespan (the `try` has no `except`), so
application startup fails — the server does not go on serving. -/
theorem C7_spawn_failure_cex :
    startup (Except.error "spawn failed") = Except.error "spawn failed" ∧
    startupSucceeds (startup (Except.error "spawn failed")) = false :=
  ⟨rfl, rfl⟩

/-- Claim C7 (amended): a spawn failure at startup propagates unhandled
out of the lifespan, so application startup fails and the server does not
serve (and no handle is recorded); only a successful spawn yields a
serving application with the handle and the two relays installed. -/
theorem C7_spawn_failure_propagates (e : String) (pid : Nat) :
    startup (Except.error e) = Except.error e ∧
    startupSucceeds (startup (Except.error e)) = false ∧
    startup (Except.ok pid) = Except.ok (some pid, startup_trace pid) :=
  ⟨rfl, rfl, rfl⟩

/-- Claim C8 (counterexample): when `kill()` raises during a restart of
the live worker pid 7, the handler propagates the exception (no response
body), leaves the handle unchanged, and the next status call plainly
reports `running` for pid 7 — no error state is reflected. -/
theorem C8_kill_failure_cex :
    (restart_watch (some 7) false true 8).1 = some 7 ∧
    (restart_watch (some 7) false true 8).2.1 = none ∧
    (get_watch_status (some 7) none).1 = StatusResp.running 7 := by
  decide

/-- Claim C8 (amended): a kill failure makes that restart call itself fail
(the exception propagates as the response of that one request), but no
error state is recorded: the handle stays as it was, nothing is logged,
and a subsequent status call reports the plain poll state (`running` if
the process survived the kill). -/
theorem C8_kill_failure_behavior (p n : Nat) :
    restart_watch (some p) false true n
      = (some p, none,
         [ProcOp.terminate p, ProcOp.waitTimeout p gracePeriod, ProcOp.kill p]) ∧
    (get_watch_status (some p) none).1 = StatusResp.running p ∧
    ((restart_watch (some p) false true n).2.2.countP (fun op =>
        match op with
        | ProcOp.log _ => true
        | _ => false)) = 0 :=
  ⟨rfl, rfl, rfl⟩

/-- Claim C9 (counterexample): the line `hello` arriving on the stdout
stream is forwarded as `[fluctuation] hello` — the tag is not the stream
label `stdout` (nor `stderr`), and no relay thread of the startup trace is
wired with a `stdout`/`stderr` tag. -/
theorem C9_relay_tag_cex :
    output_reader ["hello"] "fluctuation" = ["[fluctuation] hello"] ∧
    containsSub "stdout".data "[fluctuation] hello".data = false ∧
    ((startup_trace 42).any (fun op =>
        match op with
        | ProcOp.startRelayThread _ _ tag => tag == "stdout" || tag == "stderr"
        | _ => false)) = false := by
  decide

/-- Claim C9 (amended): every complete line of a worker output stream is
forwarded to the shared stdout sink as `[tag] line.strip()`, where the
tag wired at startup is the fixed per-stream name `fluctuation` for the
stdout stream and `fluctuation-err` for the stderr stream — not the
literal stream label, and without the worker pid. -/
theorem C9_relay_behavior (lines : List String) (p : Nat) :
    output_reader lines "fluctuation"
      = lines.map (fun l => "[fluctuation] " ++ pyStrip l) ∧
    output_reader lines "fluctuation-err"
      = lines.map (fun l => "[fluctuation-err] " ++ pyStrip l) ∧
    ProcOp.startRelayThread p "stdout" "fluctuation" ∈ startup_trace p ∧
    ProcOp.startRelayThread p "stderr" "fluctuation-err" ∈ startup_trace p := by
  refine ⟨rfl, rfl, ?_, ?_⟩ <;> simp [startup_trace]

/-- Claim C10: on the empty (zero-byte) data file, the JSON endpoint
raises a 500 with the pandas parse-error message, while the CSV endpoint
serves the file successfully. -/
theorem C10_empty_file :
    get_changes_json (some "") =
      HResponse.httpError 500 "Error reading CSV: No columns to parse from file" ∧
    get_changes_csv (some "") = HResponse.fileResp "" "text/csv" "changes.csv" :=
  ⟨rfl, rfl⟩

end EmFluctuation
